import Mathlib

set_option linter.unusedVariables false

/-!
# Verification of `habitat_sim/utils/data/dataextractor.py`

A shallow embedding of the `ImageExtractor` dataset facade (and its
`TopdownView` helper) from `src/habitat_sim/utils/data/dataextractor.py`,
together with theorems settling the frozen claims about it.

Modelling conventions:

* Python exceptions are modelled with `Except PyErr`; mutation of the
  facade is explicit state passing on the `Extractor` structure.
* The external simulator engine (rendering, path-finding, semantic scene
  database, pose extraction, file-tree search) is a record of abstract
  functions, `Engine`; the simulator instance itself is a small state
  (`SimState`) recording the loaded scene and the calls issued to it,
  so that "the access issued a reconfiguration" is observable.
* Geometric quantities (positions, bounds) are abstracted to `Int`
  coordinates: no claim computes with them, they are only carried around.
* Python `str` helpers used by the source (`str.lower`, `str.split`,
  `int(...)` parsing of an unsigned decimal) are modelled character-wise
  so that they evaluate inside the kernel.
* The train/test cut `int((train / 100) * num_poses)` is performed by the
  source in IEEE-754 double arithmetic.  `pyFloatPercentIdx` models that
  computation exactly (correctly-rounded division and multiplication,
  round half to even, truncation toward zero) for values in the normal
  range of doubles, which covers every percentage split and every pose
  count below `2 ^ 960`.
-/

/-- Python exceptions raised (or raisable) by the source. -/
inductive PyErr where
  /-- `IndexError`, from out-of-range list subscripts. -/
  | indexError : PyErr
  /-- `KeyError`, from a failed `dict` lookup. -/
  | keyError (key : String) : PyErr
  /-- `AttributeError`, from reading an attribute that is not set
  (in particular `self.sim` after `del self.sim`, and `self.res`,
  which `__init__` reads but never assigns). -/
  | attributeError (attr : String) : PyErr
  /-- `ValueError`, e.g. from `range` with zero step or `int()` on a
  non-numeric string. -/
  | valueError (msg : String) : PyErr
  /-- `NameError`, from referencing an undefined global name. -/
  | nameError (nm : String) : PyErr
  /-- A bare `raise Exception(msg)`. -/
  | exception (msg : String) : PyErr
deriving DecidableEq

/-- A camera pose, the 4-tuple `(position, rotation, label, filepath)`
produced by the external pose extractor (source line 124 unpacks it as
`pos, rot, label, fp`).  Positions and rotations are opaque payload
here; `fp` is the scene path the pose belongs to. -/
structure Pose where
  pos : Int × Int × Int
  rot : Int × Int × Int × Int
  label : Int
  fp : String
deriving DecidableEq

/-- A call issued to the live simulator instance, recorded in order.  The
claims observe reconfiguration calls through this trace. -/
inductive SimCall where
  | reconfigure (scene : String) : SimCall
  | setAgentState (p : Pose) : SimCall
  | getObservations : SimCall
deriving DecidableEq

/-- The live simulator instance: the scene currently loaded into it and
the trace of calls issued to it so far. -/
structure SimState where
  scene : String
  trace : List SimCall
deriving DecidableEq

/-- The 2-D free-space raster held by a `TopdownView` (a numeric numpy
array in the source; a boolean raster is enough for the claims). -/
abbrev TDV := List (List Bool)

/-- A per-scene reference point `(width, y, height)` as returned by
`_get_pathfinder_reference_point`. -/
abbrev RefPoint := Int × Int × Int

/-- One sensor observation (opaque payload of a numpy array). -/
abbrev Obs := String

/-- The sample returned by a scalar indexed access: the Python dict
`{out_name: obs[sensor_name] for out_name in self.output}`, as an
ordered association list. -/
abbrev Sample := List (String × Obs)

/-- Construction-time external calls, recorded in order, so that "no
partial construction happened" is observable. -/
inductive Effect where
  /-- `search_dir_tree_for_ext(filepath, ".glb")`. -/
  | searchDir (root : String) : Effect
  /-- `habitat_sim.Simulator(cfg)` constructing a fresh simulator. -/
  | createSim (scene : String) : Effect
  /-- `sim.reconfigure(cfg)` during construction. -/
  | reconfigureSim (scene : String) : Effect
  /-- `_get_pathfinder_reference_point(sim.pathfinder)`. -/
  | refPointQuery (scene : String) : Effect
  /-- `TopdownView(sim, ...)`, i.e. `pathfinder.get_topdown_view`. -/
  | topdownQuery (scene : String) : Effect
  /-- `PoseExtractor(...).extract_poses(labels=...)`. -/
  | extractPosesCall : Effect
  /-- Reading `sim.semantic_scene` for `_generate_label_map`. -/
  | semanticQuery (scene : String) : Effect
deriving DecidableEq

/-- A semantic-scene object: its identifier string (e.g. `"obj_12"`,
whose trailing `_`-separated segment is the numeric instance id) and its
optional category name.  The object list may contain `None` entries,
hence the `Option` at the use site. -/
structure SemObj where
  oid : String
  category : Option String
deriving DecidableEq

/-- The external collaborators of the module (simulator engine,
path-finder, semantic-scene database, pose extractor, file tree search),
abstracted as unconstrained functions: the source delegates to them
through a fixed call contract and this module adds no logic of its own
to theirs. -/
structure Engine where
  /-- `os.path.isdir(filepath)`. -/
  isDir : String → Bool
  /-- `search_dir_tree_for_ext(filepath, ".glb")`. -/
  searchDirTree : String → List String
  /-- `pf.get_bounds()`: two opposite corner points of the navigable
  bounding box of a scene. -/
  bounds : String → (Int × Int × Int) × (Int × Int × Int)
  /-- `pf.get_random_navigable_point()` for a scene (the sampled point;
  its non-determinism is folded into the engine value). -/
  randomNavigablePoint : String → Int × Int × Int
  /-- `pf.get_topdown_view(pixels_per_meter, height)` for a scene, at
  the module's fixed resolution. -/
  getTopdownView : String → Int → TDV
  /-- `PoseExtractor(triples, sim, ppm).extract_poses(labels=labels)`:
  the pose collection produced from the per-scene triples and the label
  set. -/
  extractPoses : List (TDV × String × RefPoint) → List Int → List Pose
  /-- `np.random.shuffle(self.poses)`: the permutation the shuffle
  applies on this run (non-determinism folded into the engine value). -/
  shuffle : List Pose → List Pose
  /-- `sim.get_sensor_observations()[sensor_name]` with the given scene
  loaded and the agent at the given pose. -/
  observations : String → Pose → String → Obs
  /-- `sim.semantic_scene.objects` with the given scene loaded. -/
  semanticScene : String → List (Option SemObj)

/-- The `ImageExtractor` facade state: its instance attributes as
assigned by `__init__`.  `sim = none` models `del self.sim` after
`close()`.  The source also stores `self.cfg`, `self.pixels_per_meter`
(the float `0.1`), `self.pose_extractor` and the `self.mode_to_data`
dict of aliases to `poses`/`train`/`test`; the dict is modelled by the
lookup function `mode_to_data` below, the float constant is kept out of
the state (no claim reads it), and the other two are engine-side
objects. -/
structure Extractor where
  scene_filepaths : List String
  cur_fp : Option String
  labels : List Int
  img_size : Nat × Nat
  tdv_fp_ref_triples : List (TDV × String × RefPoint)
  poses : List Pose
  train : List Pose
  test : List Pose
  mode : String
  sim : Option SimState
  instance_id_to_name : List (Nat × String)
  output : List String
deriving DecidableEq

/-! ## Python string and list primitives -/

/-- `str.lower` on one character (ASCII range; the mode strings the
source compares against are ASCII). -/
def pyLowerChar (c : Char) : Char :=
  if 'A' ≤ c ∧ c ≤ 'Z' then Char.ofNat (c.toNat + 32) else c

/-- `str.lower` (ASCII range). -/
def pyLower (s : String) : String := ⟨s.data.map pyLowerChar⟩

/-- `str.split(sep)` for a one-character separator, on the character
list of the string. -/
def pySplitChars (sep : Char) : List Char → List (List Char)
  | [] => [[]]
  | c :: cs =>
    match pySplitChars sep cs with
    | [] => [[c]]
    | seg :: rest => if c = sep then [] :: seg :: rest else (c :: seg) :: rest

/-- `s.split(sep)[-1]`: the segment after the last separator. -/
def pyLastSegment (sep : Char) (s : String) : String :=
  ⟨(pySplitChars sep s.data).getLastD []⟩

/-- `int(s)` for an unsigned decimal literal (the only shape of instance
id the source parses); any other string raises `ValueError` as `int()`
does. -/
def pyParseNat (s : String) : Except PyErr Nat :=
  if s.data ≠ [] ∧ s.data.all Char.isDigit then
    .ok (s.data.foldl (fun n c => n * 10 + (c.toNat - 48)) 0)
  else .error (.valueError "invalid literal for int() with base 10")

/-- Python list subscription `l[i]`: negative indices count from the
end; out-of-range raises `IndexError`. -/
def pyGetIdx {α : Type} (l : List α) (i : Int) : Except PyErr α :=
  let j : Int := if i < 0 then i + l.length else i
  match l.get? j.toNat with
  | some x => if 0 ≤ j then .ok x else .error .indexError
  | none => .error .indexError

/-- `range(start, stop, step)` as a list; `step = 0` raises
`ValueError`. -/
def pyRange (start stop step : Int) : Except PyErr (List Int) :=
  if step = 0 then .error (.valueError "range() arg 3 must not be zero")
  else if 0 < step then
    let cnt := ((stop - start).toNat + (step.toNat - 1)) / step.toNat
    .ok ((List.range cnt).map fun k => start + step * (k : Int))
  else
    let cnt := ((start - stop).toNat + ((-step).toNat - 1)) / (-step).toNat
    .ok ((List.range cnt).map fun k => start + step * (k : Int))

/-- `list(set(xs))`: deduplication.  CPython's `set` iteration order is
implementation-defined (hash-based and randomized between runs); it is
modelled here as first-occurrence order.  In particular no ordering of
the result is guaranteed by the source, only its membership. -/
def pySetList {α : Type} [DecidableEq α] (l : List α) : List α :=
  l.foldl (fun acc x => if x ∈ acc then acc else acc ++ [x]) []

/-! ## IEEE-754 double model for the split index

`_handle_split` computes `int((train / 100) * num_poses)`: an exact
integer-to-double division correctly rounded to nearest (ties to even),
an exact product with `num_poses` again correctly rounded, then
truncation toward zero.  The model below reproduces this bit-exactly for
operands in the normal range of doubles. -/

/-- Bit length of a natural number (fuel-based so that it evaluates in
the kernel; the fuel bound `4096` covers every number below `2 ^ 4096`,
far beyond the operands that arise from percentage splits). -/
def bitlenAux : Nat → Nat → Nat
  | 0, _ => 0
  | fuel + 1, n => if n = 0 then 0 else bitlenAux fuel (n / 2) + 1

/-- Bit length: `2 ^ (bitlen n - 1) ≤ n < 2 ^ bitlen n` for `n ≥ 1`. -/
def bitlen (n : Nat) : Nat := bitlenAux 4096 n

/-- Decide `2 ^ d ≤ a / b` for naturals `a, b ≥ 1` and an integer
exponent `d`, by cross-multiplication. -/
def pow2le (d : Int) (a b : Nat) : Bool :=
  if 0 ≤ d then b * 2 ^ d.toNat ≤ a else b ≤ a * 2 ^ (-d).toNat

/-- `⌊log₂ (a / b)⌋` for `a, b ≥ 1`. -/
def floorLog2 (a b : Nat) : Int :=
  let d : Int := (bitlen a : Int) - (bitlen b : Int)
  if pow2le d a b then d else d - 1

/-- Round the quotient `q` with remainder `r` by divisor `b` half to
even (IEEE-754 default rounding of `(q * b + r) / b` to an integer). -/
def rhe (q r b : Nat) : Nat :=
  if 2 * r < b then q else if b < 2 * r then q + 1
  else if q % 2 = 0 then q else q + 1

/-- Correctly round the positive rational `a / b` to a double: returns
`(m, E)` with value `m * 2 ^ (E - 52)` where `2 ^ 52 ≤ m ≤ 2 ^ 53`. -/
def roundRat (a b : Nat) : Nat × Int :=
  let E := floorLog2 a b
  let t : Int := 52 - E
  if 0 ≤ t then
    let num := a * 2 ^ t.toNat
    (rhe (num / b) (num % b) b, E)
  else
    let den := b * 2 ^ (-t).toNat
    (rhe (a / den) (a % den) den, E)

/-- The index computed by `int((train / 100) * num_poses)` in IEEE-754
double arithmetic: correctly-rounded division `train / 100`, then the
product with `num_poses` correctly rounded, then truncation. -/
def pyFloatPercentIdx (train num_poses : Nat) : Nat :=
  if train = 0 ∨ num_poses = 0 then 0
  else
    let p1 := roundRat train 100
    let p2 :=
      if 0 ≤ 52 - p1.2 then roundRat (p1.1 * num_poses) (2 ^ (52 - p1.2).toNat)
      else roundRat (p1.1 * num_poses * 2 ^ (p1.2 - 52).toNat) 1
    if 0 ≤ p2.2 - 52 then p2.1 * 2 ^ (p2.2 - 52).toNat
    else p2.1 / 2 ^ (52 - p2.2).toNat

/-! ## The facade's methods -/

/-- `ImageExtractor._handle_split` (lines 177–183): cut the pose list at
`int((train / 100) * num_poses)` into a prefix (train) and suffix
(test).  The source reads `num_poses = len(self.poses)`; at its only
call site the `poses` argument *is* `self.poses`, so the length is
taken from the argument here. -/
def handle_split (split : Nat × Nat) (poses : List Pose) : List Pose × List Pose :=
  let last_train_idx := pyFloatPercentIdx split.1 poses.length
  (poses.take last_train_idx, poses.drop last_train_idx)

/-- The `self.mode_to_data` dict built by `__init__` (keys `"full"`,
`"train"`, `"test"` and `None`, aliasing the three pose lists); any
other key raises `KeyError`. -/
def mode_to_data (ex : Extractor) (key : Option String) : Except PyErr (List Pose) :=
  match key with
  | some "full" => .ok ex.poses
  | some "train" => .ok ex.train
  | some "test" => .ok ex.test
  | none => .ok ex.poses
  | some k => .error (.keyError k)

/-- The `self.out_name_to_sensor_name` dict assigned by `__init__`
(lines 96–100). -/
def out_name_to_sensor_name (out : String) : Option String :=
  match out with
  | "rgba" => some "color_sensor"
  | "depth" => some "depth_sensor"
  | "semantic" => some "semantic_sensor"
  | _ => none

/-- `ImageExtractor.set_mode` (lines 161–168): lower-case the argument,
reject anything but `"full"`/`"train"`/`"test"`, otherwise store the
lower-cased mode. -/
def set_mode (ex : Extractor) (mode : String) : Except PyErr Unit × Extractor :=
  let mymode := pyLower mode
  if mymode = "full" ∨ mymode = "train" ∨ mymode = "test" then
    (.ok (), { ex with mode := mymode })
  else
    (.error (.exception ("Mode " ++ mode ++
      " is not a valid mode for ImageExtractor. Please enter \"full, train, or test\"")), ex)

/-- `ImageExtractor.get_semantic_class_names` (lines 170–175):
`['background'] + list(set(name for name in values if name != 'background'))`. -/
def get_semantic_class_names (ex : Extractor) : List String :=
  let class_names := pySetList
    ((ex.instance_id_to_name.map Prod.snd).filter (fun n => n ≠ "background"))
  "background" :: class_names

/-- `ImageExtractor.close` (lines 155–159): `self.sim.close()` then
`del self.sim`; a second call finds no `sim` attribute. -/
def close (ex : Extractor) : Except PyErr Unit × Extractor :=
  match ex.sim with
  | none => (.error (.attributeError "sim"), ex)
  | some _ => (.ok (), { ex with sim := none })

/-- `ImageExtractor._generate_label_map` (lines 194–205): for every
non-`None` object with a truthy category, parse the trailing numeric
segment of its id and map it to the category name; Python dict update
semantics (later assignment to an existing key overwrites in place). -/
def dictInsert (d : List (Nat × String)) (k : Nat) (v : String) : List (Nat × String) :=
  if (d.map Prod.fst).contains k then
    d.map (fun p => if p.1 = k then (k, v) else p)
  else d ++ [(k, v)]

/-- The loop of `_generate_label_map` over the object list, building the
dict front to back as the Python `for` loop does. -/
def generate_label_map_from (d : List (Nat × String)) :
    List (Option SemObj) → Except PyErr (List (Nat × String))
  | [] => .ok d
  | none :: rest => generate_label_map_from d rest
  | some obj :: rest =>
    match obj.category with
    | none => generate_label_map_from d rest
    | some cname =>
      match pyParseNat (pyLastSegment '_' obj.oid) with
      | .error e => .error e
      | .ok objId => generate_label_map_from (dictInsert d objId cname) rest

/-- `ImageExtractor._generate_label_map` (lines 194–205), starting from
the empty dict. -/
def generate_label_map (objs : List (Option SemObj)) :
    Except PyErr (List (Nat × String)) :=
  generate_label_map_from [] objs

/-! ## Configuration building and indexed access -/

/-- A simulator configuration value: the scene id together with the
agent/sensor settings derived from the image size (three sensors at
that resolution, fixed mounting height, physics disabled — all constant
in `_config_sim`, so the scene and image size determine the value). -/
structure Config where
  scene : String
  img_size : Nat × Nat
deriving DecidableEq

/-- Modelled from the spec: the simulator configuration builder of
§4.2.  The source calls it `make_config_default_settings` (lines 59,
128, 147) and `config_sim` (line 65), but neither name is defined or
imported in the module under `src/` — the module defines the equivalent
method `_config_sim` (lines 207–260), which builds exactly a
configuration from a scene path and an image size.  The builder is
therefore modelled as the value combining the two, per §4.2 ("Input:
scene path, (height, width) image size.  Output: an immutable
configuration value…  No error paths"). -/
def make_config_default_settings (scene_filepath : String) (img_size : Nat × Nat) :
    Config :=
  { scene := scene_filepath, img_size := img_size }

/-- `sim.reconfigure(cfg)`: load the configuration's scene and record
the call. -/
def SimState.reconfigure (s : SimState) (cfg : Config) : SimState :=
  { s with scene := cfg.scene, trace := s.trace ++ [.reconfigure cfg.scene] }

/-- `ImageExtractor._get_pathfinder_reference_point` (lines 185–192):
min-x and min-z of the two bound corners, and the elevation of a random
navigable point. -/
def get_pathfinder_reference_point (eng : Engine) (scene : String) : RefPoint :=
  let b := eng.bounds scene
  (min b.1.1 b.2.1, (eng.randomNavigablePoint scene).2.1, min b.1.2.2 b.2.2.2)

/-- The sample dict comprehension of `__getitem__` (lines 136–139):
`{out_name: obs[self.out_name_to_sensor_name[out_name]] for out_name in
self.output}`; an unknown output name raises `KeyError`. -/
def buildSample (eng : Engine) (scene : String) (p : Pose) :
    List String → Except PyErr Sample
  | [] => .ok []
  | o :: rest =>
    match out_name_to_sensor_name o with
    | none => .error (.keyError o)
    | some sensor =>
      match buildSample eng scene p rest with
      | .error e => .error e
      | .ok s => .ok ((o, eng.observations scene p sensor) :: s)

/-- The tail of the scalar `__getitem__` path (lines 131–142): set the
agent state, request observations, build the sample dict.  Reading
`self.sim` fails with `AttributeError` after `close()`. -/
def getitemBody (eng : Engine) (ex : Extractor) (p : Pose) :
    Except PyErr Sample × Extractor :=
  match ex.sim with
  | none => (.error (.attributeError "sim"), ex)
  | some s =>
    let s' := { s with trace := s.trace ++ [.setAgentState p, .getObservations] }
    let ex' := { ex with sim := some s' }
    match buildSample eng s'.scene p ex.output with
    | .error e => (.error e, ex')
    | .ok sample => (.ok sample, ex')

/-- `ImageExtractor.__getitem__` with an integer index (lines 122–142):
look the pose up in the active partition, reconfigure the simulator
onto the pose's scene only if it differs from `self.cur_fp` (updating
`cur_fp`), then render.  State mutations performed before an exception
persist, as in Python. -/
def getitemInt (eng : Engine) (ex : Extractor) (i : Int) :
    Except PyErr Sample × Extractor :=
  match mode_to_data ex (some (pyLower ex.mode)) with
  | .error e => (.error e, ex)
  | .ok data =>
    match pyGetIdx data i with
    | .error e => (.error e, ex)
    | .ok p =>
      if some p.fp ≠ ex.cur_fp then
        match ex.sim with
        | none => (.error (.attributeError "sim"), ex)
        | some s =>
          let s' := s.reconfigure (make_config_default_settings p.fp ex.img_size)
          getitemBody eng { ex with sim := some s', cur_fp := some p.fp } p
      else
        getitemBody eng ex p

/-- The recursive list comprehension of the slice path (lines 116–120):
for each produced index `i` with `i < len(data)`, a recursive scalar
access; an exception from any of them aborts the comprehension (state
mutations already performed persist). -/
def getitemSliceAux (eng : Engine) (len : Nat) :
    List Int → Extractor → Except PyErr (List Sample) × Extractor
  | [], ex => (.ok [], ex)
  | i :: rest, ex =>
    if i < (len : Int) then
      match getitemInt eng ex i with
      | (.error e, ex') => (.error e, ex')
      | (.ok s, ex') =>
        match getitemSliceAux eng len rest ex' with
        | (.error e, ex'') => (.error e, ex'')
        | (.ok ss, ex'') => (.ok (s :: ss), ex'')
    else getitemSliceAux eng len rest ex

/-- `ImageExtractor.__getitem__` with a slice (lines 107–120): default
the missing bounds to `0`/`len(self.mode_to_data[self.mode])`/`1`,
produce `range(start, stop, step)`, and resolve each index below the
partition length recursively. -/
def getitemSlice (eng : Engine) (ex : Extractor)
    (start stop step : Option Int) : Except PyErr (List Sample) × Extractor :=
  match mode_to_data ex (some ex.mode) with
  | .error e => (.error e, ex)
  | .ok data =>
    let start' := start.getD 0
    let stop' := stop.getD (data.length : Int)
    let step' := step.getD 1
    match pyRange start' stop' step' with
    | .error e => (.error e, ex)
    | .ok idxs => getitemSliceAux eng data.length idxs ex

/-- A Python subscript argument: an integer or a slice. -/
inductive PyIndex where
  | int (i : Int) : PyIndex
  | slice (start stop step : Option Int) : PyIndex

/-- The result of `__getitem__`: one sample, or a list of samples for a
slice. -/
inductive GetResult where
  | single (s : Sample) : GetResult
  | list (l : List Sample) : GetResult
deriving DecidableEq

/-- `ImageExtractor.__getitem__` (lines 106–142), dispatching on the
index shape as `isinstance(idx, slice)` does. -/
def getitem (eng : Engine) (ex : Extractor) :
    PyIndex → Except PyErr GetResult × Extractor
  | .int i =>
    match getitemInt eng ex i with
    | (.error e, ex') => (.error e, ex')
    | (.ok s, ex') => (.ok (.single s), ex')
  | .slice start stop step =>
    match getitemSlice eng ex start stop step with
    | (.error e, ex') => (.error e, ex')
    | (.ok l, ex') => (.ok (.list l), ex')

/-- `ImageExtractor.__len__` (lines 103–104). -/
def extractorLen (ex : Extractor) : Except PyErr Nat :=
  match mode_to_data ex (some ex.mode) with
  | .error e => .error e
  | .ok data => .ok data.length

/-! ## Construction -/

/-- Lines 49–55 of `__init__`: resolve the scene paths (directory →
recursive `.glb` search; file → singleton). -/
def resolve_scene_filepaths (eng : Engine) (filepath : String) : List String :=
  if eng.isDir filepath then eng.searchDirTree filepath else [filepath]

/-- `ImageExtractor.precomute_tdv_and_refs` (lines 144–153): for every
scene path in order, rebuild its configuration, reconfigure the
simulator, resolve the reference point, build the top-down view, and
collect the `(view, path, reference point)` triples in scene order.
(In the source this loop cannot run as written — `TopdownView(sim,
ref_point[1], res=res)` passes a keyword `res` that `TopdownView` does
not accept; the view construction is modelled per spec §4.3, a pure
delegation to `pathfinder.get_topdown_view` at the reference
elevation.) -/
def precomute_tdv_and_refs (eng : Engine) (img_size : Nat × Nat) :
    SimState → List String → SimState × List (TDV × String × RefPoint) × List Effect
  | s, [] => (s, [], [])
  | s, p :: rest =>
    let s1 := s.reconfigure (make_config_default_settings p img_size)
    let ref := get_pathfinder_reference_point eng p
    let tdv := eng.getTopdownView p ref.2.1
    let out := precomute_tdv_and_refs eng img_size s1 rest
    (out.1, (tdv, p, ref) :: out.2.1,
      [.reconfigureSim p, .refPointQuery p, .topdownQuery p] ++ out.2.2)

/-- `ImageExtractor.__init__` (lines 36–101), faithful to the source:
validate the split, resolve scene paths, build the first configuration
and construct (or reconfigure) the simulator — and then fail, because
line 71 reads `self.res`, an attribute `__init__` never assigns, so
`AttributeError` is raised before `precomute_tdv_and_refs` is entered.
(With the builder names taken at face value the failure is even
earlier: line 59's `make_config_default_settings` is an undefined
global name, a `NameError`; the builder is spec-modelled here, see
`make_config_default_settings`.)  Returns the raised error together
with the trace of construction-time external calls performed before
it. -/
def ImageExtractor.init (eng : Engine) (filepath : String) (labels : List Int)
    (img_size : Nat × Nat) (output : List String) (simOpt : Option SimState)
    (shuffle : Bool) (split : Nat × Nat) : Except PyErr Extractor × List Effect :=
  if split.1 + split.2 ≠ 100 then
    (.error (.exception "Train/test split must sum to 100."), [])
  else
    let dir := eng.isDir filepath
    let effs0 : List Effect := if dir then [.searchDir filepath] else []
    let scene_filepaths := resolve_scene_filepaths eng filepath
    match scene_filepaths.head? with
    | none => (.error .indexError, effs0)
    | some s0 =>
      let _cfg := make_config_default_settings s0 img_size
      let effs1 : List Effect :=
        match simOpt with
        | none => [.createSim s0]
        | some s => [.reconfigureSim s.scene]
      (.error (.attributeError "res"), effs0 ++ effs1)

/-- Modelled from the spec: the construction protocol of §4.5, steps
1–8, as the source's `__init__` (lines 36–101) writes it.  The source
cannot run as written — it references the undefined global names
`make_config_default_settings` and `config_sim` where §4.2's builder is
meant (the module's own `_config_sim`), reads the never-assigned
attribute `self.res` where the resolution `self.pixels_per_meter` is
meant (§4.3: "a pixel-per-meter resolution (default 0.1)"), and passes
`TopdownView` a keyword it does not accept (see
`ImageExtractor.init`).  This definition follows the source's structure
with those slips resolved as §§4.2–4.5 describe, so that the
post-construction claims can be settled against the documented
protocol. -/
def ImageExtractor.initSpec (eng : Engine) (filepath : String) (labels : List Int)
    (img_size : Nat × Nat) (output : List String) (simOpt : Option SimState)
    (shuffle : Bool) (split : Nat × Nat) : Except PyErr Extractor × List Effect :=
  if split.1 + split.2 ≠ 100 then
    (.error (.exception "Train/test split must sum to 100."), [])
  else
    let dir := eng.isDir filepath
    let effs0 : List Effect := if dir then [.searchDir filepath] else []
    let scene_filepaths := resolve_scene_filepaths eng filepath
    let cur_fp : Option String := if dir then none else some filepath
    match scene_filepaths.head? with
    | none => (.error .indexError, effs0)
    | some s0 =>
      let sim0 : SimState × List Effect :=
        match simOpt with
        | none => (⟨s0, []⟩, [.createSim s0])
        | some s => (s.reconfigure (make_config_default_settings s.scene img_size),
            [.reconfigureSim s.scene])
      let pre := precomute_tdv_and_refs eng img_size sim0.1 scene_filepaths
      let poses0 := eng.extractPoses pre.2.1 (pySetList labels)
      let poses := if shuffle then eng.shuffle poses0 else poses0
      let tt := handle_split split poses
      let effs := effs0 ++ sim0.2 ++ pre.2.2 ++
        [.extractPosesCall, .semanticQuery pre.1.scene]
      match generate_label_map (eng.semanticScene pre.1.scene) with
      | .error e => (.error e, effs)
      | .ok lm =>
        (.ok { scene_filepaths := scene_filepaths
               cur_fp := cur_fp
               labels := pySetList labels
               img_size := img_size
               tdv_fp_ref_triples := pre.2.1
               poses := poses
               train := tt.1
               test := tt.2
               mode := "full"
               sim := some pre.1
               instance_id_to_name := lm
               output := output }, effs)

/-! ## Observations on traces and concrete test fixtures -/

/-- The scenes for which a `reconfigure` call has been issued to the
live simulator, in order (empty if the simulator has been released).
This is the call-count observation the claims about scene-switch
minimization use. -/
def reconfigureScenes (ex : Extractor) : List String :=
  match ex.sim with
  | none => []
  | some s => s.trace.filterMap fun c =>
      match c with
      | .reconfigure sc => some sc
      | _ => none

/-- A pose fixture. -/
def mkPose (fp : String) (k : Int) : Pose :=
  { pos := (k, 0, 0), rot := (0, 0, 0, 1), label := 0, fp := fp }

/-- A concrete engine for witnesses: `"scenes"` is a directory holding
two scene files, every other path is a single scene file; two poses per
scene; a small semantic scene. -/
def testEngine : Engine where
  isDir := fun p => p = "scenes"
  searchDirTree := fun _ => ["a.glb", "b.glb"]
  bounds := fun _ => ((0, 0, 0), (4, 0, 6))
  randomNavigablePoint := fun _ => (1, 2, 3)
  getTopdownView := fun _ _ => [[true, false]]
  extractPoses := fun triples _ =>
    triples.flatMap fun t => [mkPose t.2.1 0, mkPose t.2.1 1]
  shuffle := fun l => l.reverse
  observations := fun sc _ sensor => sc ++ ":" ++ sensor
  semanticScene := fun _ =>
    [some { oid := "obj_0", category := some "chair" }, none,
     some { oid := "obj_1", category := some "bed" },
     some { oid := "obj_2", category := none }]

/-! ## Claim C3: split validation happens first -/

/-- Claim C3: for every split pair whose components do not sum to 100,
construction raises the configuration error `"Train/test split must sum
to 100."` before performing any other construction step: no external
call at all has been issued (the effect trace is empty), in particular
no scene resolution, no simulator creation and no pose extraction.
This holds both for the source's `__init__` as written and for the
spec-modelled construction protocol. -/
theorem C3_split_validation (eng : Engine) (filepath : String) (labels : List Int)
    (img_size : Nat × Nat) (output : List String) (simOpt : Option SimState)
    (shuffle : Bool) (split : Nat × Nat) (h : split.1 + split.2 ≠ 100) :
    ImageExtractor.init eng filepath labels img_size output simOpt shuffle split =
      (.error (.exception "Train/test split must sum to 100."), []) ∧
    ImageExtractor.initSpec eng filepath labels img_size output simOpt shuffle split =
      (.error (.exception "Train/test split must sum to 100."), []) := by
  constructor
  · simp only [ImageExtractor.init, if_pos h]
  · simp only [ImageExtractor.initSpec, if_pos h]

/-- Witness for C3 at the split `(60, 30)` named by the spec. -/
theorem C3_split_validation_witness :
    ImageExtractor.init testEngine "a.glb" [0] (64, 64) ["rgba"] none true (60, 30) =
      (.error (.exception "Train/test split must sum to 100."), []) := by
  exact (C3_split_validation testEngine "a.glb" [0] (64, 64) ["rgba"] none true (60, 30)
    (by decide)).1

/-! ## Claim C5: `set_mode` -/

/-- Claim C5: `set_mode` accepts exactly the strings whose lower-casing
is `"full"`, `"train"` or `"test"` (so it is case-insensitive, and
`set_mode("TRAIN")` and `set_mode("train")` produce identical results
and states); for any other string it raises the configuration error and
leaves the facade, in particular its current mode, unchanged. -/
theorem C5_set_mode (ex : Extractor) (m : String) :
    ((set_mode ex m).1 = .ok () ↔
      (pyLower m = "full" ∨ pyLower m = "train" ∨ pyLower m = "test")) ∧
    (∀ e, (set_mode ex m).1 = .error e → (set_mode ex m).2 = ex) ∧
    set_mode ex "TRAIN" = set_mode ex "train" := by
  refine ⟨?_, ?_, rfl⟩
  · simp only [set_mode]
    split
    · simp_all
    · simp_all
  · intro e
    simp only [set_mode]
    split
    · simp
    · simp

/-- A concrete facade state fixture: one scene, two poses, split 1/1,
live simulator, mode `"full"`. -/
def exFix : Extractor where
  scene_filepaths := ["a.glb"]
  cur_fp := some "a.glb"
  labels := [0]
  img_size := (64, 64)
  tdv_fp_ref_triples := []
  poses := [mkPose "a.glb" 0, mkPose "a.glb" 1]
  train := [mkPose "a.glb" 0]
  test := [mkPose "a.glb" 1]
  mode := "full"
  sim := some { scene := "a.glb", trace := [] }
  instance_id_to_name := [(0, "chair"), (1, "bed")]
  output := ["rgba"]

/-- Witness for C5: `set_mode("bogus")` fails and leaves the mode
unchanged on a concrete facade state; `set_mode("TRAIN")` succeeds. -/
theorem C5_set_mode_witness :
    (set_mode exFix "bogus").1 ≠ .ok () ∧ (set_mode exFix "TRAIN").1 = .ok () := by
  constructor
  · intro h
    have := ((C5_set_mode exFix "bogus").1).mp h
    simp [pyLower, pyLowerChar] at this
  · exact ((C5_set_mode exFix "TRAIN").1).mpr (by right; left; rfl)

/-! ## Structure lemmas about scalar access -/

/-- `getitemBody` only appends non-reconfigure calls to the trace and
touches no other field: the current-scene pointer, the pose lists, the
mode, the outputs and the label map are untouched, and no reconfigure
call is issued by it. -/
theorem getitemBody_state (eng : Engine) (ex : Extractor) (p : Pose) :
    (getitemBody eng ex p).2.cur_fp = ex.cur_fp ∧
    (getitemBody eng ex p).2.mode = ex.mode ∧
    (getitemBody eng ex p).2.poses = ex.poses ∧
    (getitemBody eng ex p).2.train = ex.train ∧
    (getitemBody eng ex p).2.test = ex.test ∧
    (getitemBody eng ex p).2.output = ex.output ∧
    (getitemBody eng ex p).2.img_size = ex.img_size ∧
    (getitemBody eng ex p).2.instance_id_to_name = ex.instance_id_to_name ∧
    reconfigureScenes (getitemBody eng ex p).2 = reconfigureScenes ex ∧
    ((getitemBody eng ex p).2.sim.isSome ↔ ex.sim.isSome) := by
  cases hsim : ex.sim with
  | none => simp [getitemBody, hsim]
  | some s =>
    simp only [getitemBody, hsim]
    cases h : buildSample eng s.scene p ex.output <;>
      simp [reconfigureScenes, hsim, List.filterMap_append]

/-- If the pose lookup succeeds and the simulator is live, a scalar
access reconfigures exactly when the pose's scene differs from
`cur_fp`, updates `cur_fp` to the pose's scene either way, and leaves
the data model fields untouched. -/
theorem getitemInt_state (eng : Engine) (ex : Extractor) (i : Int)
    (data : List Pose) (p : Pose) (s : SimState)
    (hdata : mode_to_data ex (some (pyLower ex.mode)) = .ok data)
    (hp : pyGetIdx data i = .ok p)
    (hsim : ex.sim = some s) :
    (getitemInt eng ex i).2.cur_fp = some p.fp ∧
    reconfigureScenes (getitemInt eng ex i).2 =
      (if some p.fp ≠ ex.cur_fp then reconfigureScenes ex ++ [p.fp]
       else reconfigureScenes ex) ∧
    (getitemInt eng ex i).2.mode = ex.mode ∧
    (getitemInt eng ex i).2.poses = ex.poses ∧
    (getitemInt eng ex i).2.train = ex.train ∧
    (getitemInt eng ex i).2.test = ex.test ∧
    (getitemInt eng ex i).2.output = ex.output ∧
    (getitemInt eng ex i).2.img_size = ex.img_size ∧
    (getitemInt eng ex i).2.instance_id_to_name = ex.instance_id_to_name ∧
    (getitemInt eng ex i).2.sim.isSome := by
  simp only [getitemInt, hdata, hp]
  by_cases hfp : some p.fp ≠ ex.cur_fp
  · simp only [if_pos hfp, hsim]
    obtain ⟨b1, b2, b3, b4, b5, b6, b7, b8, b9, b10⟩ := getitemBody_state eng
      { ex with sim := some (s.reconfigure (make_config_default_settings p.fp ex.img_size)),
                cur_fp := some p.fp } p
    refine ⟨by rw [b1], ?_, by rw [b2], by rw [b3], by rw [b4], by rw [b5], by rw [b6],
      by rw [b7], by rw [b8], b10.mpr rfl⟩
    rw [b9]
    simp [reconfigureScenes, hsim, SimState.reconfigure, List.filterMap_append,
      make_config_default_settings]
  · simp only [if_neg hfp]
    push_neg at hfp
    obtain ⟨b1, b2, b3, b4, b5, b6, b7, b8, b9, b10⟩ := getitemBody_state eng ex p
    exact ⟨by rw [b1, ← hfp], b9, b2, b3, b4, b5, b6, b7, b8,
      b10.mpr (by rw [hsim]; rfl)⟩

/-! ## Claim C4: scene-switch minimization -/

/-- Claim C4: a scalar indexed access that finds its pose issues a
simulator reconfiguration if and only if the pose's scene path differs
from the current-scene pointer, and after the access the pointer equals
the pose's scene path; consequently, when a second scalar access right
after it finds a pose with the same scene path, it issues no
reconfiguration call. -/
theorem C4_scene_switch_cache (eng : Engine) (ex : Extractor) (i : Int)
    (data : List Pose) (p : Pose) (s : SimState)
    (hdata : mode_to_data ex (some (pyLower ex.mode)) = .ok data)
    (hp : pyGetIdx data i = .ok p)
    (hsim : ex.sim = some s) :
    reconfigureScenes (getitemInt eng ex i).2 =
      (if some p.fp ≠ ex.cur_fp then reconfigureScenes ex ++ [p.fp]
       else reconfigureScenes ex) ∧
    (getitemInt eng ex i).2.cur_fp = some p.fp ∧
    (∀ (j : Int) (data' : List Pose) (q : Pose),
      mode_to_data (getitemInt eng ex i).2
          (some (pyLower (getitemInt eng ex i).2.mode)) = .ok data' →
      pyGetIdx data' j = .ok q → q.fp = p.fp →
      reconfigureScenes (getitemInt eng (getitemInt eng ex i).2 j).2 =
        reconfigureScenes (getitemInt eng ex i).2) := by
  obtain ⟨h1, h2, _, _, _, _, _, _, _, h10⟩ := getitemInt_state eng ex i data p s hdata hp hsim
  refine ⟨h2, h1, ?_⟩
  intro j data' q hdata' hq hfp
  obtain ⟨s', hs'⟩ := Option.isSome_iff_exists.mp h10
  obtain ⟨g1, g2, _⟩ := getitemInt_state eng (getitemInt eng ex i).2 j data' q s' hdata' hq hs'
  rw [g2, if_neg]
  rw [h1, hfp]
  simp

/-- Witness for C4: on a concrete facade whose pointer already holds the
pose's scene, a scalar access issues no reconfiguration and leaves the
pointer on that scene. -/
theorem C4_scene_switch_cache_witness :
    (getitemInt testEngine exFix 0).2.cur_fp = some "a.glb" ∧
    reconfigureScenes (getitemInt testEngine exFix 0).2 = reconfigureScenes exFix := by
  have h := C4_scene_switch_cache testEngine exFix 0 exFix.poses (mkPose "a.glb" 0)
    { scene := "a.glb", trace := [] } rfl rfl rfl
  refine ⟨by simpa [mkPose] using h.2.1, ?_⟩
  rw [h.1, if_neg]
  simp [exFix, mkPose]


/-! ## Structure lemmas about construction -/

/-- After the precompute loop the simulator holds the last scene of the
list (or its starting scene when the list is empty). -/
theorem precompute_last_scene (eng : Engine) (img : Nat × Nat) :
    ∀ (paths : List String) (s : SimState),
      (precomute_tdv_and_refs eng img s paths).1.scene = paths.getLast?.getD s.scene
  | [], s => rfl
  | p :: rest, s => by
    cases rest with
    | nil => simp [precomute_tdv_and_refs, SimState.reconfigure,
        make_config_default_settings]
    | cons q rest' =>
      have ih := precompute_last_scene eng img (q :: rest')
        (SimState.reconfigure s (make_config_default_settings p img))
      simp only [precomute_tdv_and_refs] at ih ⊢
      rw [ih]
      rcases h : (q :: rest').getLast? with _ | l
      · simp at h
      · simp [List.getLast?_cons_cons, h]

/-- Whether an effect is the semantic-scene query. -/
def isSemanticQuery : Effect → Bool
  | .semanticQuery _ => true
  | _ => false

/-- The precompute loop issues no semantic-scene query. -/
theorem precompute_no_semantic (eng : Engine) (img : Nat × Nat) :
    ∀ (paths : List String) (s : SimState),
      ((precomute_tdv_and_refs eng img s paths).2.2).countP isSemanticQuery = 0
  | [], _ => rfl
  | p :: rest, s => by
    have ih := precompute_no_semantic eng img rest
      (SimState.reconfigure s (make_config_default_settings p img))
    simp [precomute_tdv_and_refs, List.countP_cons, ih, isSemanticQuery]

/-- Field extraction from a successful run of the construction
protocol: the pointer is `None` exactly in the directory branch, the
mode is `"full"`, the simulator is live on the last resolved scene, the
label map is the one generated from that scene's semantic objects, and
exactly one semantic-scene query was issued during construction. -/
theorem initSpec_ok_fields (eng : Engine) (fp : String) (labels : List Int)
    (img : Nat × Nat) (out : List String) (simOpt : Option SimState)
    (sh : Bool) (split : Nat × Nat) (ex : Extractor) (effs : List Effect)
    (h : ImageExtractor.initSpec eng fp labels img out simOpt sh split = (.ok ex, effs)) :
    ex.cur_fp = (if eng.isDir fp then none else some fp) ∧
    ex.mode = "full" ∧
    ex.scene_filepaths = resolve_scene_filepaths eng fp ∧
    (∃ s : SimState, ex.sim = some s ∧
      s.scene = (resolve_scene_filepaths eng fp).getLast?.getD "" ∧
      generate_label_map (eng.semanticScene s.scene) = .ok ex.instance_id_to_name) ∧
    effs.countP isSemanticQuery = 1 := by
  simp only [ImageExtractor.initSpec] at h
  split at h
  · simp at h
  · split at h
    · simp at h
    · next s0 hhead =>
      split at h
      · simp at h
      · next lm hlm =>
        rw [Prod.mk.injEq] at h
        obtain ⟨h1, h2⟩ := h
        rw [Except.ok.injEq] at h1
        subst h1
        subst h2
        have hne : resolve_scene_filepaths eng fp ≠ [] := by
          intro hnil
          rw [hnil] at hhead
          simp at hhead
        obtain ⟨l, hl⟩ := List.getLast?_isSome.mpr hne |> Option.isSome_iff_exists.mp
        refine ⟨rfl, rfl, rfl, ⟨_, rfl, ?_, hlm⟩, ?_⟩
        · rw [precompute_last_scene, hl]
          rfl
        · simp only [List.countP_append]
          rw [precompute_no_semantic]
          have h0 : (if eng.isDir fp then [Effect.searchDir fp] else []).countP
              isSemanticQuery = 0 := by
            split <;> rfl
          have hsim0 : ((match simOpt with
              | none => ((⟨s0, []⟩ : SimState), ([.createSim s0] : List Effect))
              | some s => (s.reconfigure (make_config_default_settings s.scene img),
                  [.reconfigureSim s.scene])).2).countP isSemanticQuery = 0 := by
            cases simOpt <;> rfl
          rw [h0, hsim0]
          rfl

/-! ## Claim C10: directory construction leaves `cur_fp = None` -/

/-- Claim C10: when the facade is constructed from a directory path the
current-scene pointer is `None` after construction (only the
single-file branch sets it), so the very first scalar indexed access
that finds its pose always issues a simulator reconfiguration — even
when the pose's scene path equals the scene loaded last during
precomputation. -/
theorem C10_first_access_reconfigures (eng : Engine) (fp : String)
    (labels : List Int) (img : Nat × Nat) (out : List String)
    (simOpt : Option SimState) (sh : Bool) (split : Nat × Nat)
    (ex : Extractor) (effs : List Effect)
    (hdir : eng.isDir fp = true)
    (h : ImageExtractor.initSpec eng fp labels img out simOpt sh split = (.ok ex, effs)) :
    ex.cur_fp = none ∧
    ∀ (i : Int) (data : List Pose) (p : Pose),
      mode_to_data ex (some (pyLower ex.mode)) = .ok data →
      pyGetIdx data i = .ok p →
      reconfigureScenes (getitemInt eng ex i).2 = reconfigureScenes ex ++ [p.fp] := by
  obtain ⟨hcur, _, _, ⟨s, hsim, _, _⟩, _⟩ :=
    initSpec_ok_fields eng fp labels img out simOpt sh split ex effs h
  rw [hdir, if_pos rfl] at hcur
  refine ⟨hcur, ?_⟩
  intro i data p hdata hp
  obtain ⟨_, h2, _⟩ := getitemInt_state eng ex i data p s hdata hp hsim
  rw [h2, if_pos]
  rw [hcur]
  simp

/-- The concrete construction run used by the witnesses: the directory
`"scenes"` with two scene files, shuffling on, split `(70, 30)`. -/
def initDirRun : Except PyErr Extractor × List Effect :=
  ImageExtractor.initSpec testEngine "scenes" [0] (64, 64) ["rgba"] none true (70, 30)

/-- The facade state produced by `initDirRun`. -/
def exDir : Extractor :=
  match initDirRun.1 with
  | .ok e => e
  | .error _ => exFix

/-- Witness for C10: the concrete directory run leaves the pointer at
`None`, and its first scalar access issues a reconfiguration onto the
first pose's scene — which is `"b.glb"`, the very scene loaded last
during precomputation. -/
theorem C10_first_access_reconfigures_witness :
    exDir.cur_fp = none ∧
    reconfigureScenes (getitemInt testEngine exDir 0).2 =
      reconfigureScenes exDir ++ ["b.glb"] := by
  have hrun : ImageExtractor.initSpec testEngine "scenes" [0] (64, 64) ["rgba"]
      none true (70, 30) = (.ok exDir, initDirRun.2) := rfl
  have h := C10_first_access_reconfigures testEngine "scenes" [0] (64, 64) ["rgba"]
    none true (70, 30) exDir initDirRun.2 rfl hrun
  refine ⟨h.1, ?_⟩
  have := h.2 0 exDir.poses (mkPose "b.glb" 1) rfl rfl
  simpa [mkPose] using this

/-! ## Claim C9: the label map is computed once and never touched -/

/-- A scalar access never modifies the label map, whatever the state. -/
theorem getitemInt_label_map (eng : Engine) (ex : Extractor) (i : Int) :
    (getitemInt eng ex i).2.instance_id_to_name = ex.instance_id_to_name := by
  cases hd : mode_to_data ex (some (pyLower ex.mode)) with
  | error e => simp [getitemInt, hd]
  | ok data =>
    cases hp : pyGetIdx data i with
    | error e => simp [getitemInt, hd, hp]
    | ok p =>
      simp only [getitemInt, hd, hp]
      by_cases hfp : some p.fp ≠ ex.cur_fp
      · rw [if_pos hfp]
        cases hsim : ex.sim with
        | none => simp
        | some s =>
          simpa using (getitemBody_state eng
            { ex with sim := some (s.reconfigure (make_config_default_settings p.fp ex.img_size)),
                      cur_fp := some p.fp } p).2.2.2.2.2.2.2.1
      · rw [if_neg hfp]
        exact (getitemBody_state eng ex p).2.2.2.2.2.2.2.1

/-- The slice comprehension never modifies the label map. -/
theorem getitemSliceAux_label_map (eng : Engine) (len : Nat) :
    ∀ (idxs : List Int) (ex : Extractor),
      (getitemSliceAux eng len idxs ex).2.instance_id_to_name = ex.instance_id_to_name
  | [], ex => rfl
  | i :: rest, ex => by
    simp only [getitemSliceAux]
    by_cases hi : i < (len : Int)
    · rw [if_pos hi]
      have hpres := getitemInt_label_map eng ex i
      rcases hg : getitemInt eng ex i with ⟨r, ex'⟩
      rw [hg] at hpres
      cases r with
      | error e => simpa using hpres
      | ok s =>
        have haux := getitemSliceAux_label_map eng len rest ex'
        rcases ha : getitemSliceAux eng len rest ex' with ⟨r', ex''⟩
        rw [ha] at haux
        cases r' <;> simp_all
    · rw [if_neg hi]
      exact getitemSliceAux_label_map eng len rest ex

/-- A slice access never modifies the label map. -/
theorem getitemSlice_label_map (eng : Engine) (ex : Extractor)
    (start stop step : Option Int) :
    (getitemSlice eng ex start stop step).2.instance_id_to_name =
      ex.instance_id_to_name := by
  cases hd : mode_to_data ex (some ex.mode) with
  | error e => simp [getitemSlice, hd]
  | ok data =>
    simp only [getitemSlice, hd]
    cases hr : pyRange (start.getD 0) (stop.getD (data.length : Int)) (step.getD 1) with
    | error e => simp
    | ok idxs => simpa using getitemSliceAux_label_map eng data.length idxs ex

/-- Claim C9: the label map is computed exactly once at construction —
from the scene loaded last during precomputation (construction issues a
single semantic-scene query, on the last resolved scene path) — and no
scalar or slice indexed access ever modifies it, even when the access
switches the loaded scene. -/
theorem C9_label_map_once (eng : Engine) (fp : String) (labels : List Int)
    (img : Nat × Nat) (out : List String) (simOpt : Option SimState)
    (sh : Bool) (split : Nat × Nat) (ex : Extractor) (effs : List Effect)
    (h : ImageExtractor.initSpec eng fp labels img out simOpt sh split = (.ok ex, effs)) :
    generate_label_map (eng.semanticScene
        ((resolve_scene_filepaths eng fp).getLast?.getD "")) =
      .ok ex.instance_id_to_name ∧
    effs.countP isSemanticQuery = 1 ∧
    (∀ (ex' : Extractor) (i : Int),
      (getitemInt eng ex' i).2.instance_id_to_name = ex'.instance_id_to_name) ∧
    (∀ (ex' : Extractor) (start stop step : Option Int),
      (getitemSlice eng ex' start stop step).2.instance_id_to_name =
        ex'.instance_id_to_name) := by
  obtain ⟨_, _, _, ⟨s, _, hscene, hlm⟩, hcount⟩ :=
    initSpec_ok_fields eng fp labels img out simOpt sh split ex effs h
  refine ⟨?_, hcount, fun ex' i => getitemInt_label_map eng ex' i,
    fun ex' a b c => getitemSlice_label_map eng ex' a b c⟩
  rw [← hscene]
  exact hlm

/-- Witness for C9: on the concrete directory run, the stored label map
is the one generated from `"b.glb"` (the scene loaded last), and a
concrete scalar access that switches scenes leaves it unchanged. -/
theorem C9_label_map_once_witness :
    generate_label_map (testEngine.semanticScene
        ((resolve_scene_filepaths testEngine "scenes").getLast?.getD "")) =
      .ok exDir.instance_id_to_name ∧
    (getitemInt testEngine exDir 0).2.instance_id_to_name =
      exDir.instance_id_to_name := by
  have hrun : ImageExtractor.initSpec testEngine "scenes" [0] (64, 64) ["rgba"]
      none true (70, 30) = (.ok exDir, initDirRun.2) := rfl
  have h := C9_label_map_once testEngine "scenes" [0] (64, 64) ["rgba"]
    none true (70, 30) exDir initDirRun.2 hrun
  exact ⟨h.1, h.2.2.1 exDir 0⟩

/-! ## Claim C1: the train/test cut -/

/-- A collection of 100 poses in one scene. -/
def posesC1 : List Pose := (List.range 100).map fun (j : Nat) => mkPose "a.glb" (Int.ofNat j)

/-- Counterexample to C1 as stated: at the valid split `(29, 71)` and a
collection of 100 poses, the claim's cut index is
`⌊29/100 × 100⌋ = 29`, but the source's float computation
`int((29 / 100) * 100)` yields 28 (`0.29 * 100 == 28.999999999999996`
in IEEE-754 doubles), so the train partition is *not* `full[:29]`. -/
theorem C1_counterexample :
    29 + 71 = 100 ∧ posesC1.length = 100 ∧ 29 * posesC1.length / 100 = 29 ∧
    (handle_split (29, 71) posesC1).1 ≠ posesC1.take 29 := by
  have hlen : posesC1.length = 100 := by
    rw [posesC1, List.length_map, List.length_range]
  have hk : pyFloatPercentIdx 29 100 = 28 := by decide
  refine ⟨rfl, hlen, by rw [hlen], ?_⟩
  intro h
  have hlength := congrArg List.length h
  simp only [handle_split, hlen, hk, List.length_take] at hlength
  omega

/-- Claim C1, amended: the construction cut is a prefix/suffix cut of
the (possibly shuffled) pose collection at the float-computed index
`int((a / 100) * len(full))` — which equals `⌊a/100 × len(full)⌋` for
most but not all inputs (see `C1_counterexample`) — and in every case
`train ++ test = full`, so `len(train) + len(test) = len(full)`. -/
theorem C1_split_cut (a b : Nat) (h : a + b = 100) (poses : List Pose) :
    (handle_split (a, b) poses).1 ++ (handle_split (a, b) poses).2 = poses ∧
    (handle_split (a, b) poses).1.length + (handle_split (a, b) poses).2.length =
      poses.length ∧
    (handle_split (a, b) poses).1 = poses.take (pyFloatPercentIdx a poses.length) ∧
    (handle_split (a, b) poses).2 = poses.drop (pyFloatPercentIdx a poses.length) := by
  refine ⟨List.take_append_drop _ _, ?_, rfl, rfl⟩
  simp only [handle_split, List.length_take, List.length_drop]
  omega

/-- Witness for C1 at the split `(70, 30)` on the 100-pose fixture. -/
theorem C1_split_cut_witness :
    70 + 30 = 100 ∧
    (handle_split (70, 30) posesC1).1.length +
      (handle_split (70, 30) posesC1).2.length = posesC1.length := by
  exact ⟨rfl, (C1_split_cut 70 30 rfl posesC1).2.1⟩

/-! ## Claim C2: construction cannot complete -/

/-- Claim C2 fails on the code: for every construction input whose
split sums to 100 and whose path resolves to at least one scene, the
source's `__init__` raises before reaching the per-scene precompute
loop.  With the undefined builder names resolved (spec §4.2), the first
failure is the read of the never-assigned attribute `self.res` on
line 71 — construction never completes the documented protocol. -/
theorem C2_construction_raises (eng : Engine) (fp : String) (labels : List Int)
    (img : Nat × Nat) (out : List String) (simOpt : Option SimState)
    (sh : Bool) (split : Nat × Nat)
    (hsum : split.1 + split.2 = 100)
    (hne : resolve_scene_filepaths eng fp ≠ []) :
    (ImageExtractor.init eng fp labels img out simOpt sh split).1 =
      .error (.attributeError "res") := by
  rcases hh : (resolve_scene_filepaths eng fp).head? with _ | s0
  · rw [List.head?_eq_none_iff] at hh
    exact absurd hh hne
  · simp only [ImageExtractor.init, if_neg (show ¬split.1 + split.2 ≠ 100 by omega), hh]

/-- Witness for C2: the concrete single-file construction with the
default split `(70, 30)` raises `AttributeError` instead of completing. -/
theorem C2_construction_raises_witness :
    (ImageExtractor.init testEngine "a.glb" [0] (64, 64) ["rgba"] none true
        (70, 30)).1 = .error (.attributeError "res") := by
  exact C2_construction_raises testEngine "a.glb" [0] (64, 64) ["rgba"] none true
    (70, 30) rfl (by decide)

/-! ## Claim C6: `get_semantic_class_names` -/

/-- Membership in the fold modelling `list(set(xs))`. -/
theorem pySetList_go_mem {α : Type} [DecidableEq α] :
    ∀ (l acc : List α) (y : α),
      (y ∈ l.foldl (fun acc x => if x ∈ acc then acc else acc ++ [x]) acc) ↔
        y ∈ acc ∨ y ∈ l
  | [], acc, y => by simp
  | x :: l, acc, y => by
    simp only [List.foldl_cons]
    by_cases h : x ∈ acc
    · rw [if_pos h, pySetList_go_mem l acc y]
      constructor
      · rintro (hy | hy)
        · exact Or.inl hy
        · exact Or.inr (List.mem_cons_of_mem _ hy)
      · rintro (hy | hy)
        · exact Or.inl hy
        · rcases List.mem_cons.mp hy with rfl | hy
          · exact Or.inl h
          · exact Or.inr hy
    · rw [if_neg h, pySetList_go_mem l (acc ++ [x]) y]
      simp only [List.mem_append, List.mem_cons, List.mem_singleton]
      tauto

/-- The fold modelling `list(set(xs))` keeps the accumulator free of
duplicates. -/
theorem pySetList_go_nodup {α : Type} [DecidableEq α] :
    ∀ (l acc : List α), acc.Nodup →
      (l.foldl (fun acc x => if x ∈ acc then acc else acc ++ [x]) acc).Nodup
  | [], _, h => h
  | x :: l, acc, h => by
    simp only [List.foldl_cons]
    by_cases hx : x ∈ acc
    · rw [if_pos hx]
      exact pySetList_go_nodup l acc h
    · rw [if_neg hx]
      exact pySetList_go_nodup l (acc ++ [x]) (by simp [List.nodup_append, h, hx])

/-- `list(set(xs))` has the same members as `xs`. -/
theorem pySetList_mem {α : Type} [DecidableEq α] (l : List α) (y : α) :
    y ∈ pySetList l ↔ y ∈ l := by
  rw [pySetList, pySetList_go_mem]
  simp

/-- `list(set(xs))` has no duplicates. -/
theorem pySetList_nodup {α : Type} [DecidableEq α] (l : List α) :
    (pySetList l).Nodup :=
  pySetList_go_nodup l [] List.nodup_nil

/-- The facade state whose label map holds the two categories
`"chair"` (inserted first) and `"bed"`. -/
def exC6 : Extractor := { exFix with instance_id_to_name := [(1, "chair"), (2, "bed")] }

/-- Counterexample to C6 as stated: with categories `{"chair", "bed"}`
the accessor returns `["background", "chair", "bed"]` — `"background"`
is at position 0 and there are no duplicates, but the tail is in set
iteration order (here: insertion order; in CPython: hash order), not
sorted: `"chair" > "bed"`.  The sorted result named by the claim would
be `["background", "bed", "chair"]`. -/
theorem C6_counterexample :
    get_semantic_class_names exC6 = ["background", "chair", "bed"] ∧
    ¬ List.Sorted (fun a b : String => a ≤ b) (get_semantic_class_names exC6) := by
  constructor
  · rfl
  · intro h
    rw [show get_semantic_class_names exC6 = ["background", "chair", "bed"] from rfl]
      at h
    have := (List.sorted_cons.mp ((List.sorted_cons.mp h).2)).1 "bed" (by simp)
    rw [String.le_iff_toList_le] at this
    revert this
    decide

/-- Claim C6, amended: for every label map,
`get_semantic_class_names()` returns the distinct category names with
`"background"` at position 0 (present even when no object carries that
category) and no duplicate anywhere; the order of the remaining names
is the set's iteration order, which is implementation-defined — not
sorted. -/
theorem C6_class_names (ex : Extractor) :
    (get_semantic_class_names ex).head? = some "background" ∧
    (get_semantic_class_names ex).Nodup ∧
    (∀ s, s ∈ get_semantic_class_names ex ↔
      (s = "background" ∨
        (s ≠ "background" ∧ s ∈ ex.instance_id_to_name.map Prod.snd))) := by
  refine ⟨rfl, ?_, ?_⟩
  · rw [get_semantic_class_names, List.nodup_cons]
    refine ⟨?_, pySetList_nodup _⟩
    intro hbg
    have := (List.mem_filter.mp ((pySetList_mem _ _).mp hbg)).2
    simp at this
  · intro s
    rw [get_semantic_class_names, List.mem_cons, pySetList_mem, List.mem_filter]
    simp only [decide_eq_true_eq]
    tauto

/-! ## Claim C8: access after `close` -/

/-- With the simulator attribute deleted, every scalar access raises
(whatever else the state holds) and leaves the state unchanged. -/
theorem getitemInt_closed (eng : Engine) (ex : Extractor) (i : Int)
    (h : ex.sim = none) :
    (∃ e, (getitemInt eng ex i).1 = .error e) ∧ (getitemInt eng ex i).2 = ex := by
  cases hd : mode_to_data ex (some (pyLower ex.mode)) with
  | error e => simp [getitemInt, hd]
  | ok data =>
    cases hp : pyGetIdx data i with
    | error e => simp [getitemInt, hd, hp]
    | ok p =>
      simp only [getitemInt, hd, hp]
      by_cases hfp : some p.fp ≠ ex.cur_fp
      · rw [if_pos hfp, h]
        exact ⟨⟨_, rfl⟩, rfl⟩
      · rw [if_neg hfp]
        simp [getitemBody, h]

/-- With the simulator attribute deleted, the slice comprehension
either skips every produced index (returning `[]`) or aborts with the
error of its first selected index. -/
theorem getitemSliceAux_closed (eng : Engine) (len : Nat) :
    ∀ (idxs : List Int) (ex : Extractor), ex.sim = none →
      (((getitemSliceAux eng len idxs ex).1 = .ok [] ∧
          ∀ i ∈ idxs, ¬ i < (len : Int)) ∨
        ∃ e, (getitemSliceAux eng len idxs ex).1 = .error e)
  | [], ex, _ => Or.inl ⟨rfl, by simp⟩
  | i :: rest, ex, h => by
    simp only [getitemSliceAux]
    by_cases hi : i < (len : Int)
    · rw [if_pos hi]
      obtain ⟨⟨e, he⟩, hst⟩ := getitemInt_closed eng ex i h
      rcases hg : getitemInt eng ex i with ⟨r, ex'⟩
      rw [hg] at he hst
      simp only at he hst
      subst he
      exact Or.inr ⟨e, rfl⟩
    · rw [if_neg hi]
      rcases getitemSliceAux_closed eng len rest ex h with ⟨hok, hall⟩ | ⟨e, he⟩
      · exact Or.inl ⟨hok, by
          intro j hj
          rcases List.mem_cons.mp hj with rfl | hj
          · exact hi
          · exact hall j hj⟩
      · exact Or.inr ⟨e, he⟩

/-- Claim C8, amended: once `close()` has released the simulator, every
scalar indexed access fails with an error, and no slice access ever
returns a sample — a slice either fails with the error of its first
selected index or, when it selects no index at all (every produced
index falls outside the partition), returns the empty list.  (The
original claim said *every* access fails; the empty-selection slice is
the exception, see `C8_counterexample`.) -/
theorem C8_closed_access_fails (eng : Engine) (ex0 ex : Extractor) (s : SimState)
    (hs : ex0.sim = some s) (hclose : close ex0 = (.ok (), ex)) :
    (∀ i : Int, ∃ e, (getitemInt eng ex i).1 = .error e) ∧
    (∀ start stop step : Option Int,
      (getitemSlice eng ex start stop step).1 = .ok [] ∨
      ∃ e, (getitemSlice eng ex start stop step).1 = .error e) ∧
    (∀ (start stop step : Option Int) (data : List Pose) (idxs : List Int),
      mode_to_data ex (some ex.mode) = .ok data →
      pyRange (start.getD 0) (stop.getD (data.length : Int)) (step.getD 1) = .ok idxs →
      (∃ i ∈ idxs, i < (data.length : Int)) →
      ∃ e, (getitemSlice eng ex start stop step).1 = .error e) := by
  have hnone : ex.sim = none := by
    rw [close, hs] at hclose
    have := congrArg Prod.snd hclose
    simp only at this
    rw [← this]
  refine ⟨fun i => (getitemInt_closed eng ex i hnone).1, ?_, ?_⟩
  · intro start stop step
    cases hd : mode_to_data ex (some ex.mode) with
    | error e => simp [getitemSlice, hd]
    | ok data =>
      simp only [getitemSlice, hd]
      cases hr : pyRange (start.getD 0) (stop.getD (data.length : Int))
          (step.getD 1) with
      | error e => simp
      | ok idxs =>
        simp only
        rcases getitemSliceAux_closed eng data.length idxs ex hnone with ⟨hok, _⟩ | he
        · exact Or.inl hok
        · exact Or.inr he
  · intro start stop step data idxs hd hr ⟨i, hi, hlt⟩
    simp only [getitemSlice, hd, hr]
    rcases getitemSliceAux_closed eng data.length idxs ex hnone with ⟨_, hall⟩ | he
    · exact absurd hlt (hall i hi)
    · exact he

/-- Counterexample to C8 as stated: on a concrete facade, after a
successful `close()`, the slice access `[0:0]` returns the empty list —
a subsequent indexed access that does *not* fail. -/
theorem C8_counterexample :
    (close exFix).1 = .ok () ∧
    (getitemSlice testEngine (close exFix).2 (some 0) (some 0) none).1 = .ok [] := by
  exact ⟨rfl, rfl⟩

/-- Witness for C8: on the concrete closed facade, the scalar access
`[0]` and the slice access `[0:2]` (which selects index 0) both fail. -/
theorem C8_closed_access_fails_witness :
    (∃ e, (getitemInt testEngine (close exFix).2 0).1 = .error e) ∧
    (∃ e, (getitemSlice testEngine (close exFix).2 (some 0) (some 2)
        none).1 = .error e) := by
  have h := C8_closed_access_fails testEngine exFix (close exFix).2
    { scene := "a.glb", trace := [] } rfl rfl
  refine ⟨h.1 0, ?_⟩
  exact h.2.2 (some 0) (some 2) none (close exFix).2.poses [0, 1] rfl rfl
    ⟨0, by simp, by decide⟩

/-! ## Claim C7: slice semantics -/

/-- The partition the active mode resolves to. -/
def activeData (ex : Extractor) : List Pose :=
  if ex.mode = "train" then ex.train
  else if ex.mode = "test" then ex.test
  else ex.poses

/-- A facade state on which scalar accesses can succeed: a valid
(lower-case) mode, a live simulator, and only known output names. -/
def accessReady (ex : Extractor) : Prop :=
  (ex.mode = "full" ∨ ex.mode = "train" ∨ ex.mode = "test") ∧
  (∃ s, ex.sim = some s) ∧
  (∀ o ∈ ex.output, (out_name_to_sensor_name o).isSome = true)

/-- For a valid mode the dict lookup yields the active partition, both
under the scalar path's lower-cased key and the slice path's raw key. -/
theorem mode_to_data_valid (ex : Extractor)
    (h : ex.mode = "full" ∨ ex.mode = "train" ∨ ex.mode = "test") :
    mode_to_data ex (some (pyLower ex.mode)) = .ok (activeData ex) ∧
    mode_to_data ex (some ex.mode) = .ok (activeData ex) := by
  rcases h with h | h | h <;> rw [activeData, h] <;> exact ⟨rfl, rfl⟩

/-- Python list subscription succeeds exactly on the wrap-around range
`-len ≤ i < len`. -/
theorem pyGetIdx_ok {α : Type} (l : List α) (i : Int)
    (hlo : -(l.length : Int) ≤ i) (hhi : i < (l.length : Int)) :
    ∃ x, pyGetIdx l i = .ok x := by
  simp only [pyGetIdx]
  by_cases hneg : i < 0
  · have h0 : (0 : Int) ≤ i + l.length := by omega
    have hlt : (i + (l.length : Int)).toNat < l.length := by omega
    rw [if_pos hneg]
    obtain ⟨x, hx⟩ : ∃ x, l[(i + (l.length : Int)).toNat]? = some x :=
      ⟨_, List.getElem?_eq_getElem hlt⟩
    exact ⟨x, by simp [hx, h0]⟩
  · have h0 : (0 : Int) ≤ i := by omega
    have hlt : i.toNat < l.length := by omega
    rw [if_neg hneg]
    obtain ⟨x, hx⟩ : ∃ x, l[i.toNat]? = some x :=
      ⟨_, List.getElem?_eq_getElem hlt⟩
    exact ⟨x, by simp [hx, h0]⟩

/-- The sample comprehension succeeds when every requested output name
has a sensor mapping. -/
theorem buildSample_ok (eng : Engine) (scene : String) (p : Pose) :
    ∀ (outs : List String), (∀ o ∈ outs, (out_name_to_sensor_name o).isSome = true) →
      ∃ smp, buildSample eng scene p outs = .ok smp
  | [], _ => ⟨[], rfl⟩
  | o :: rest, h => by
    obtain ⟨sensor, hsensor⟩ := Option.isSome_iff_exists.mp (h o (by simp))
    obtain ⟨smp, hsmp⟩ := buildSample_ok eng scene p rest
      (fun o' ho' => h o' (List.mem_cons_of_mem _ ho'))
    refine ⟨(o, eng.observations scene p sensor) :: smp, ?_⟩
    simp only [buildSample, hsensor, hsmp]

/-- The scalar body succeeds on a live simulator with known outputs. -/
theorem getitemBody_ok (eng : Engine) (ex : Extractor) (p : Pose) (s : SimState)
    (hsim : ex.sim = some s)
    (houts : ∀ o ∈ ex.output, (out_name_to_sensor_name o).isSome = true) :
    ∃ smp, (getitemBody eng ex p).1 = .ok smp := by
  simp only [getitemBody, hsim]
  obtain ⟨smp, hsmp⟩ := buildSample_ok eng
    ({ s with trace := s.trace ++ [SimCall.setAgentState p, SimCall.getObservations] }).scene p
    ex.output houts
  rw [hsmp]
  exact ⟨smp, rfl⟩

/-- On an access-ready state, a scalar access with an in-range
(wrap-around) index succeeds, and the resulting state is again
access-ready with the same active partition. -/
theorem getitemInt_ready (eng : Engine) (ex : Extractor) (i : Int)
    (hready : accessReady ex)
    (hlo : -((activeData ex).length : Int) ≤ i)
    (hhi : i < ((activeData ex).length : Int)) :
    (∃ smp, (getitemInt eng ex i).1 = .ok smp) ∧
    accessReady (getitemInt eng ex i).2 ∧
    activeData (getitemInt eng ex i).2 = activeData ex := by
  obtain ⟨hmode, ⟨s, hsim⟩, houts⟩ := hready
  have hdata := (mode_to_data_valid ex hmode).1
  obtain ⟨p, hp⟩ := pyGetIdx_ok (activeData ex) i hlo hhi
  obtain ⟨_, _, hmode', hposes', htrain', htest', hout', _, _, hsome'⟩ :=
    getitemInt_state eng ex i (activeData ex) p s hdata hp hsim
  have hready' : accessReady (getitemInt eng ex i).2 := by
    refine ⟨by rw [hmode']; exact hmode, Option.isSome_iff_exists.mp hsome', ?_⟩
    rw [hout']
    exact houts
  have hact' : activeData (getitemInt eng ex i).2 = activeData ex := by
    rw [activeData, activeData, hmode', hposes', htrain', htest']
  refine ⟨?_, hready', hact'⟩
  simp only [getitemInt, hdata, hp]
  by_cases hfp : some p.fp ≠ ex.cur_fp
  · rw [if_pos hfp, hsim]
    exact getitemBody_ok eng _ p _ rfl houts
  · rw [if_neg hfp]
    exact getitemBody_ok eng ex p s hsim houts

/-- The slice comprehension on an access-ready state, when every
produced index is at least `-len`, returns a list with one sample per
produced index below `len`. -/
theorem getitemSliceAux_count (eng : Engine) (len : Nat) :
    ∀ (idxs : List Int) (ex : Extractor), accessReady ex →
      (activeData ex).length = len →
      (∀ i ∈ idxs, -(len : Int) ≤ i) →
      ∃ l, (getitemSliceAux eng len idxs ex).1 = .ok l ∧
        l.length = idxs.countP (fun i => decide (i < (len : Int))) ∧
        accessReady (getitemSliceAux eng len idxs ex).2 ∧
        (activeData (getitemSliceAux eng len idxs ex).2).length = len
  | [], ex, hready, hlen, _ => ⟨[], rfl, by simp, hready, hlen⟩
  | i :: rest, ex, hready, hlen, hneg => by
    simp only [getitemSliceAux]
    by_cases hi : i < (len : Int)
    · rw [if_pos hi]
      obtain ⟨⟨smp, hsmp⟩, hready', hact'⟩ := getitemInt_ready eng ex i hready
        (by rw [hlen]; exact hneg i (by simp))
        (by rw [hlen]; exact hi)
      rcases hg : getitemInt eng ex i with ⟨r, ex'⟩
      rw [hg] at hsmp hready' hact'
      simp only at hsmp hready' hact'
      subst hsmp
      obtain ⟨l, hl, hcount, hready'', hlen''⟩ := getitemSliceAux_count eng len rest ex'
        hready' (by rw [hact']; exact hlen)
        (fun j hj => hneg j (List.mem_cons_of_mem _ hj))
      rcases ha : getitemSliceAux eng len rest ex' with ⟨r', ex''⟩
      rw [ha] at hl hready'' hlen''
      simp only at hl hready'' hlen''
      subst hl
      simp only [ha]
      refine ⟨smp :: l, rfl, ?_, hready'', hlen''⟩
      simp [List.countP_cons, hcount, hi]
    · rw [if_neg hi]
      obtain ⟨l, hl, hcount, hready', hlen'⟩ := getitemSliceAux_count eng len rest ex
        hready hlen (fun j hj => hneg j (List.mem_cons_of_mem _ hj))
      refine ⟨l, hl, ?_, hready', hlen'⟩
      simp [List.countP_cons, hcount, hi]

/-- Claim C7, amended: for every slice on an access-ready facade whose
produced indices are all at least `-len(partition)` (in particular
every slice with non-negative bounds), the result is a list with one
sample per produced index below the partition length — indices at or
beyond the partition length are silently skipped rather than failing.
(Indices below `-len(partition)` pass the code's `i < len` filter but
make the recursive scalar access raise `IndexError`, see
`C7_counterexample`; Python-valid negative indices `-len ≤ i < 0` wrap
around and are rendered, counting toward the length.) -/
theorem C7_slice_length (eng : Engine) (ex : Extractor)
    (start stop step : Option Int) (idxs : List Int)
    (hready : accessReady ex)
    (hrange : pyRange (start.getD 0) (stop.getD ((activeData ex).length : Int))
        (step.getD 1) = .ok idxs)
    (hneg : ∀ i ∈ idxs, -((activeData ex).length : Int) ≤ i) :
    ∃ l, (getitemSlice eng ex start stop step).1 = .ok l ∧
      l.length = idxs.countP (fun i => decide (i < ((activeData ex).length : Int))) := by
  have hdata := (mode_to_data_valid ex hready.1).2
  simp only [getitemSlice, hdata, hrange]
  obtain ⟨l, hl, hc, _, _⟩ := getitemSliceAux_count eng (activeData ex).length idxs ex
    hready rfl hneg
  exact ⟨l, hl, hc⟩

/-- Counterexample to C7 as stated: on a concrete facade whose active
partition holds 2 poses, the slice `[-5:0]` produces the indices
`-5 … -1`, of which two (`-2`, `-1`) are valid for the partition — yet
the access raises `IndexError` (at index `-5`) instead of returning a
list. -/
theorem C7_counterexample :
    pyRange (-5) 0 1 = .ok [-5, -4, -3, -2, -1] ∧
    exFix.poses.length = 2 ∧
    (getitemSlice testEngine exFix (some (-5)) (some 0) none).1 =
      .error .indexError := by
  exact ⟨rfl, rfl, rfl⟩

/-- Witness for C7: the slice `[0:5]` on a 2-pose partition returns a
list of exactly 2 samples, silently skipping indices 2, 3, 4. -/
theorem C7_slice_length_witness :
    ∃ l, (getitemSlice testEngine exFix (some 0) (some 5) none).1 = .ok l ∧
      l.length = 2 := by
  obtain ⟨l, hl, hc⟩ := C7_slice_length testEngine exFix (some 0) (some 5) none
    [0, 1, 2, 3, 4]
    ⟨Or.inl rfl, ⟨{ scene := "a.glb", trace := [] }, rfl⟩, by decide⟩
    rfl (by decide)
  refine ⟨l, hl, ?_⟩
  rw [hc]
  decide

/-- Witness for C6 on the concrete two-category label map. -/
theorem C6_class_names_witness :
    (get_semantic_class_names exC6).head? = some "background" ∧
    (get_semantic_class_names exC6).Nodup := by
  exact ⟨(C6_class_names exC6).1, (C6_class_names exC6).2.1⟩
